import Mathlib

/-!
Verification of the Rocinante casualty-model engine (`app.py`) against its
natural-language specification.

The Python source is shallowly embedded as follows.  Slider inputs and all
arithmetic that the source performs with `+ - * / min max abs round` are
modelled exactly over `ℚ` (the UI sliders produce decimal values); values
that pass through `math.tanh`, `math.exp` or a fractional power (`**`)
live in `ℝ` with `Real.tanh`, `Real.exp`, `Real.rpow`.  Python's `round`
(banker's rounding, half to even) is modelled by `pyRound`/`pyRoundR`, and
`round(x, 1)` by `pyRound1`.  Python dicts that the source iterates in
insertion order are modelled as association lists in the same order.
-/

namespace Rocinante

/-! ## Utility scaling functions (app.py lines 8-18) -/

/-- `morale_scaling(m) = 1 + 0.8 * math.tanh(2 * (m - 1))` (line 8). -/
noncomputable def morale_scaling (m : ℚ) : ℝ :=
  1 + 0.8 * Real.tanh (2 * ((m : ℝ) - 1))

/-- `logistic_scaling(l) = 0.5 + 0.5 * l` (line 10): exact rational arithmetic. -/
def logistic_scaling (l : ℚ) : ℚ := 0.5 + 0.5 * l

/-- `medical_scaling(med, morale, logi)` (lines 12-16 and the identical
redefinition at lines 208-215):
`penalty = 1 + (1.2*(1-med))**1.1`, `morale_adj = 1 + 0.1*(morale-1)`,
`compound = 1 + 0.15*(1-logi) if logi < 0.75 else 1.0`, product of the three. -/
noncomputable def medical_scaling (med morale logi : ℚ) : ℝ :=
  (1 + ((1.2 * (1 - med) : ℚ) : ℝ) ^ (1.1 : ℝ)) *
    ((1 + 0.1 * (morale - 1) : ℚ) : ℝ) *
    ((if logi < 0.75 then 1 + 0.15 * (1 - logi) else 1 : ℚ) : ℝ)

/-- `commander_scaling(cmd) = 1 / (1 + 0.3 * cmd)` (line 18). -/
def commander_scaling (cmd : ℚ) : ℚ := 1 / (1 + 0.3 * cmd)

/-! ## Dominance comparator (app.py lines 21-29 / 370-379 and 32-54 / 383-406;
each function is defined twice in the source with identical bodies). -/

/-- The dict `compute_relative_dominance` returns: the three deltas
`cmd_delta`, `logi_delta`, `morale_delta` (lines 370-379). -/
structure RelDominance where
  cmd_delta : ℚ
  logi_delta : ℚ
  morale_delta : ℚ
  deriving DecidableEq

/-- `compute_relative_dominance(cmd_rus, cmd_ukr, logi_rus, logi_ukr, moral_rus,
moral_ukr)` (lines 370-379): own minus opponent for command, logistics, morale. -/
def compute_relative_dominance (cmd_rus cmd_ukr logi_rus logi_ukr moral_rus moral_ukr : ℚ) :
    RelDominance :=
  { cmd_delta := cmd_rus - cmd_ukr
    logi_delta := logi_rus - logi_ukr
    morale_delta := moral_rus - moral_ukr }

/-- The five-key deltas dict handed to `compute_dominance_modifiers`:
`display_force` (lines 527-534) adds `ad_delta` and `ew_delta` to the dict
returned by `compute_relative_dominance`. -/
structure DominanceDeltas where
  cmd_delta : ℚ
  logi_delta : ℚ
  morale_delta : ℚ
  ad_delta : ℚ
  ew_delta : ℚ
  deriving DecidableEq

/-- `deltas["ad_delta"] = ...; deltas["ew_delta"] = ...` (lines 529-530 /
533-534): extend the three-delta dict with the AD and EW deltas. -/
def withAdEw (rd : RelDominance) (ad ew : ℚ) : DominanceDeltas :=
  { cmd_delta := rd.cmd_delta
    logi_delta := rd.logi_delta
    morale_delta := rd.morale_delta
    ad_delta := ad
    ew_delta := ew }

/-- The dict `compute_dominance_modifiers` returns (lines 403-406). -/
structure DominanceMods where
  suppression_mod : ℚ
  efficiency_mod : ℚ
  deriving DecidableEq

/-- `compute_dominance_modifiers(deltas)` (lines 383-406):
`suppression_score = cmd_delta + logi_delta`,
`efficiency_score = morale_delta + ad_delta + ew_delta`,
`suppression_mod = 1 + max(min(suppression_score * 0.25, 0.25), -0.20)`,
`efficiency_mod = 1 + max(min(efficiency_score * 0.20, 0.20), -0.15)`. -/
def compute_dominance_modifiers (deltas : DominanceDeltas) : DominanceMods :=
  let suppression_score := deltas.cmd_delta + deltas.logi_delta
  let efficiency_score := deltas.morale_delta + deltas.ad_delta + deltas.ew_delta
  { suppression_mod := 1 + max (min (suppression_score * 0.25) 0.25) (-0.20)
    efficiency_mod := 1 + max (min (efficiency_score * 0.20) 0.20) (-0.15) }

/-! ## C3: commander_scaling bounds -/

/-- C3 counterexample: at the valid input `cmd = 0.5`,
`commander_scaling(0.5) = 20/23 ≈ 0.8696`, which is NOT greater than `0.87`,
so the claimed interval `(0.87, 1.0]` fails at the right end of the domain. -/
theorem commander_scaling_not_above_087 :
    (0 ≤ (1/2 : ℚ) ∧ (1/2 : ℚ) ≤ 1/2) ∧
      ¬ ((87/100 : ℚ) < commander_scaling (1/2)) := by
  constructor
  · norm_num
  · norm_num [commander_scaling]

/-- C3 (amended): for every `cmd ∈ [0, 0.5]`, `commander_scaling(cmd) =
1/(1 + 0.3*cmd)` lies in `[20/23, 1]` (so in `[0.8695, 1.0]`, not `(0.87, 1.0]`)
and is strictly decreasing on `[0, 0.5]`. -/
theorem commander_scaling_bounds_mono (cmd cmd' : ℚ)
    (h0 : 0 ≤ cmd) (h1 : cmd ≤ 1/2) (h2 : cmd < cmd') :
    ((20/23 : ℚ) ≤ commander_scaling cmd ∧ commander_scaling cmd ≤ 1) ∧
      commander_scaling cmd' < commander_scaling cmd := by
  have hden : (0 : ℚ) < 1 + 0.3 * cmd := by nlinarith
  have hden' : (0 : ℚ) < 1 + 0.3 * cmd' := by nlinarith
  refine ⟨⟨?_, ?_⟩, ?_⟩
  · rw [commander_scaling, le_div_iff₀ hden]
    nlinarith
  · rw [commander_scaling, div_le_one hden]
    nlinarith
  · rw [commander_scaling, commander_scaling]
    exact div_lt_div_of_pos_left (by norm_num) hden (by nlinarith)

/-- C3 witness: the amended theorem instantiated at `cmd = 0`, `cmd' = 1/2`. -/
theorem commander_scaling_bounds_mono_witness :
    ((20/23 : ℚ) ≤ commander_scaling 0 ∧ commander_scaling 0 ≤ 1) ∧
      commander_scaling (1/2) < commander_scaling 0 :=
  commander_scaling_bounds_mono 0 (1/2) (by norm_num) (by norm_num) (by norm_num)

/-! ## C4: dominance modifiers stay in their clamp band -/

/-- C4: for every deltas dict, whatever the magnitude of the five input
deltas, `suppression_mod ∈ [0.80, 1.25]` and `efficiency_mod ∈ [0.85, 1.20]`. -/
theorem dominance_modifiers_clamped (deltas : DominanceDeltas) :
    ((0.80 : ℚ) ≤ (compute_dominance_modifiers deltas).suppression_mod ∧
      (compute_dominance_modifiers deltas).suppression_mod ≤ 1.25) ∧
    ((0.85 : ℚ) ≤ (compute_dominance_modifiers deltas).efficiency_mod ∧
      (compute_dominance_modifiers deltas).efficiency_mod ≤ 1.20) := by
  have hs := le_max_right (min ((deltas.cmd_delta + deltas.logi_delta) * 0.25) 0.25)
    (-(0.20 : ℚ))
  have hs' : max (min ((deltas.cmd_delta + deltas.logi_delta) * 0.25) 0.25)
      (-(0.20 : ℚ)) ≤ 0.25 :=
    max_le (min_le_right _ _) (by norm_num)
  have he := le_max_right (min ((deltas.morale_delta + deltas.ad_delta +
    deltas.ew_delta) * 0.20) 0.20) (-(0.15 : ℚ))
  have he' : max (min ((deltas.morale_delta + deltas.ad_delta +
      deltas.ew_delta) * 0.20) 0.20) (-(0.15 : ℚ)) ≤ 0.20 :=
    max_le (min_le_right _ _) (by norm_num)
  refine ⟨⟨?_, ?_⟩, ?_, ?_⟩ <;>
    simp only [compute_dominance_modifiers] <;> linarith

/-! ## C5: form of the dominance transform -/

/-- C5 counterexample: with both profiles inside the documented ranges
(`cmd_rus = 0.5, cmd_ukr = 0, logi_rus = 1.5, logi_ukr = 0.5`, equal morale,
equal AD and EW), the advantage deltas and the swapped-profile (disadvantage)
deltas are exact negations, yet the suppression modifier's deviation from 1 is
`+0.25` on one side and `-0.20` on the other: the transform does not respond
symmetrically to advantage and disadvantage of equal size, so it is not of the
claimed odd form `1 + tanh(delta) * min(|delta| * strength, cap)`. -/
theorem dominance_transform_not_symmetric :
    (compute_dominance_modifiers
        (withAdEw (compute_relative_dominance (1/2) 0 (3/2) (1/2) 1 1) 0 0)).suppression_mod - 1 ≠
      -((compute_dominance_modifiers
        (withAdEw (compute_relative_dominance 0 (1/2) (1/2) (3/2) 1 1) 0 0)).suppression_mod - 1) := by
  norm_num [compute_dominance_modifiers, compute_relative_dominance, withAdEw]

/-- C5 (amended): each dominance modifier is computed from its combined delta
by the clamped linear transform `1 + max(min(delta * strength, cap_hi), cap_lo)`
with asymmetric caps (suppression: `strength 0.25`, caps `+0.25 / -0.20`;
efficiency: `strength 0.20`, caps `+0.20 / -0.15`).  Swapping the two forces'
profiles negates every one of the five deltas, but at saturation the response
to advantage (`+0.25`) and to disadvantage (`-0.20`) differs in magnitude. -/
theorem dominance_transform_linear_clamped
    (cr cu lr lu mr mu ar au er eu : ℚ) (deltas : DominanceDeltas) :
    ((withAdEw (compute_relative_dominance cr cu lr lu mr mu) (ar - au) (er - eu)).cmd_delta =
        -(withAdEw (compute_relative_dominance cu cr lu lr mu mr) (au - ar) (eu - er)).cmd_delta ∧
      (withAdEw (compute_relative_dominance cr cu lr lu mr mu) (ar - au) (er - eu)).logi_delta =
        -(withAdEw (compute_relative_dominance cu cr lu lr mu mr) (au - ar) (eu - er)).logi_delta ∧
      (withAdEw (compute_relative_dominance cr cu lr lu mr mu) (ar - au) (er - eu)).morale_delta =
        -(withAdEw (compute_relative_dominance cu cr lu lr mu mr) (au - ar) (eu - er)).morale_delta ∧
      (withAdEw (compute_relative_dominance cr cu lr lu mr mu) (ar - au) (er - eu)).ad_delta =
        -(withAdEw (compute_relative_dominance cu cr lu lr mu mr) (au - ar) (eu - er)).ad_delta ∧
      (withAdEw (compute_relative_dominance cr cu lr lu mr mu) (ar - au) (er - eu)).ew_delta =
        -(withAdEw (compute_relative_dominance cu cr lu lr mu mr) (au - ar) (eu - er)).ew_delta) ∧
    (compute_dominance_modifiers deltas).suppression_mod =
        1 + max (min ((deltas.cmd_delta + deltas.logi_delta) * 0.25) 0.25) (-0.20) ∧
    (compute_dominance_modifiers deltas).efficiency_mod =
        1 + max (min ((deltas.morale_delta + deltas.ad_delta + deltas.ew_delta) * 0.20) 0.20) (-0.15) ∧
    (1 ≤ deltas.cmd_delta + deltas.logi_delta →
      (compute_dominance_modifiers deltas).suppression_mod = 1.25) ∧
    (deltas.cmd_delta + deltas.logi_delta ≤ -1 →
      (compute_dominance_modifiers deltas).suppression_mod = 0.80) := by
  refine ⟨⟨?_, ?_, ?_, ?_, ?_⟩, rfl, rfl, ?_, ?_⟩
  · simp [withAdEw, compute_relative_dominance]
  · simp [withAdEw, compute_relative_dominance]
  · simp [withAdEw, compute_relative_dominance]
  · simp [withAdEw, compute_relative_dominance]
  · simp [withAdEw, compute_relative_dominance]
  · intro h
    have h1 : min ((deltas.cmd_delta + deltas.logi_delta) * 0.25) 0.25 = 0.25 := by
      rw [min_eq_right]; nlinarith
    simp only [compute_dominance_modifiers, h1]
    rw [max_eq_left (by norm_num)]; norm_num
  · intro h
    have h1 : min ((deltas.cmd_delta + deltas.logi_delta) * 0.25) 0.25 =
        (deltas.cmd_delta + deltas.logi_delta) * 0.25 := by
      rw [min_eq_left]; nlinarith
    have h2 : max ((deltas.cmd_delta + deltas.logi_delta) * 0.25) (-(0.20 : ℚ)) =
        -(0.20 : ℚ) := by
      rw [max_eq_right]; nlinarith
    simp only [compute_dominance_modifiers, h1, h2]
    norm_num

/-! ## Rounding: Python's `round` is banker's rounding (half to even) -/

/-- Python `round(q)` on an exact rational: nearest integer, halves to even. -/
def pyRound (q : ℚ) : ℤ :=
  if q - ⌊q⌋ = 1/2 then (if Even ⌊q⌋ then ⌊q⌋ else ⌊q⌋ + 1) else round q

open scoped Classical in
/-- Python `round(x)` for a real-valued intermediate. -/
noncomputable def pyRoundR (x : ℝ) : ℤ :=
  if x - ⌊x⌋ = 1/2 then (if Even ⌊x⌋ then ⌊x⌋ else ⌊x⌋ + 1) else round x

/-- Python `round(x, 1)`: round to one decimal digit. -/
noncomputable def pyRound1 (x : ℝ) : ℝ := (pyRoundR (10 * x) : ℝ) / 10

/-! ## KIA/WIA sanity and kill-ratio enforcement (app.py lines 411-435) -/

/-- `enforce_kia_wia_sanity(kia_min, kia_max, wia_min, wia_max)` (lines 411-417):
`wia_min = max(wia_min, kia_min)`, `wia_max = max(wia_max, kia_max)`. -/
def enforce_kia_wia_sanity (kia_min kia_max wia_min wia_max : ℤ) : ℤ × ℤ :=
  (max wia_min kia_min, max wia_max kia_max)

open scoped Classical in
/-- `enforce_kill_ratio(rus_kia_range, ratio, kia_ratio_ukr)` (lines 420-435;
the earlier copy at lines 287-303 has the identical body): scale the advantaged
side's KIA range by the ratio, then re-derive totals from the overridden side's
own KIA ratio with `total = max(round(kia / kia_ratio), kia + 1)` and
`wia = total - kia`. -/
noncomputable def enforce_kill_ratio (rus_kia_range : ℤ × ℤ) (ratio : ℚ)
    (kia_ratio_ukr : ℝ) : (ℤ × ℤ) × (ℤ × ℤ) :=
  let ukr_kia_min : ℤ := pyRound ((rus_kia_range.1 : ℚ) * ratio)
  let ukr_kia_max : ℤ := pyRound ((rus_kia_range.2 : ℚ) * ratio)
  let ukr_total_min : ℤ := max (pyRoundR ((ukr_kia_min : ℝ) / kia_ratio_ukr)) (ukr_kia_min + 1)
  let ukr_total_max : ℤ := max (pyRoundR ((ukr_kia_max : ℝ) / kia_ratio_ukr)) (ukr_kia_max + 1)
  ((ukr_kia_min, ukr_kia_max), (ukr_total_min - ukr_kia_min, ukr_total_max - ukr_kia_max))

/-! ## Dynamic KIA ratio (app.py lines 338-366) -/

/-- `calculate_kia_ratio(med, logi, cmd, morale, training, cohesion,
dominance_mods, base_slider)` (lines 338-366): penalties from medical and
logistics, commander bonus, survivability from training/cohesion/morale, a
clamped dominance boost, the whole clamped to `[0.10, 0.85]`. -/
noncomputable def calculate_kia_ratio (med logi cmd morale training cohesion : ℚ)
    (dominance_mods : DominanceMods) (base_slider : ℚ) : ℝ :=
  let med_penalty : ℝ := ((1.2 * (1 - med) : ℚ) : ℝ) ^ (1.2 : ℝ)
  let logi_penalty : ℝ := ((1 - logi / 1.5 : ℚ) : ℝ) ^ (1.0 : ℝ)
  let cmd_bonus : ℚ := 0.25 * cmd
  let survivability : ℚ :=
    (1 - 0.15 * (1 - training)) * (1 - 0.10 * (1 - cohesion)) * (1 - 0.10 * (1 - morale))
  let dominance_boost : ℚ :=
    min (max (1 + 0.45 * (1 - dominance_mods.suppression_mod)) 0.85) 1.25
  let adjusted : ℝ :=
    (base_slider : ℝ) * (1 + med_penalty + logi_penalty - (cmd_bonus : ℝ)) *
      (dominance_boost : ℝ) / (survivability : ℝ)
  min (max adjusted 0.10) 0.85

/-! ## Per-weapon-system pieces of `calculate_casualties_range`
(app.py lines 438-516).  The per-system factors up to `raw_eff` are exact
rational arithmetic; `system_eff` onward is real-valued. -/

/-- System-specific scaling (lines 462-468): artillery scaled by own
`logistic_scaling * 0.95`; drones by `0.65 * max(0.9, 1 - 0.0002*duration)`;
all other systems `1.0`. -/
def systemScaling (system : String) (duration logi : ℚ) : ℚ :=
  if system = "Artillery" then logistic_scaling logi * 0.95
  else if system = "Drones" then 0.65 * max 0.9 (1 - 0.0002 * duration)
  else 1

/-- `ew_penalty` (line 470): `1.0 if system == "Air Strikes" else (0.75 if
system == "Drones" else 1.0)` — a constant per system; the `ew_enemy`
parameter plays no part in it. -/
def ewPenalty (system : String) : ℚ :=
  if system = "Air Strikes" then 1 else if system = "Drones" then 0.75 else 1

/-- `ad_penalty` (line 471): `min(max(1 - ad_density*ad_ready, 0.75), 1.05)`
for drones and air strikes, else `1.0`; computed from the AD density and
readiness arguments supplied to the calculator. -/
def adPenalty (system : String) (ad_density ad_ready : ℚ) : ℚ :=
  if system = "Drones" ∨ system = "Air Strikes" then
    min (max (1 - ad_density * ad_ready) 0.75) 1.05
  else 1

/-- `coordination` (line 472): `min(max(s2s, 0.85), 1.10)` for artillery, air
strikes and drones, else `1.0`. -/
def coordination (system : String) (s2s : ℚ) : ℚ :=
  if system = "Artillery" ∨ system = "Air Strikes" ∨ system = "Drones" then
    min (max s2s 0.85) 1.10
  else 1

/-- `raw_eff = system_scaling * ew_penalty * ad_penalty * coordination *
weapon_quality` (line 475). -/
def rawEff (system : String) (duration logi s2s ad_density ad_ready weapon_quality : ℚ) : ℚ :=
  systemScaling system duration logi * ewPenalty system *
    adPenalty system ad_density ad_ready * coordination system s2s * weapon_quality

/-- `decay_strength = 0.00035 + 0.00012 * math.tanh(duration / 800)` (line 493). -/
noncomputable def decayStrength (duration : ℚ) : ℝ :=
  0.00035 + 0.00012 * Real.tanh ((duration : ℝ) / 800)

/-- `base_resistance = morale_scaling(moral) * logistic_scaling(logi) *
(training ** 1.05)` (line 494). -/
noncomputable def baseResistance (moral logi training : ℚ) : ℝ :=
  morale_scaling moral * (logistic_scaling logi : ℝ) * (training : ℝ) ^ (1.05 : ℝ)

/-- `decay_floor = 0.50` (line 495). -/
def decayFloor : ℝ := 0.50

/-- The decay multiplier as a function of the resistance value:
`max(exp(-decay_strength * duration / resistance), decay_floor)` (line 496). -/
noncomputable def decayFactorOfRes (duration : ℚ) (resistance : ℝ) : ℝ :=
  max (Real.exp (-decayStrength duration * (duration : ℝ) / resistance)) decayFloor

/-- `decay_curve_factor` (lines 493-496) with the resistance of line 494. -/
noncomputable def decayCurveFactor (duration moral logi training : ℚ) : ℝ :=
  decayFactorOfRes duration (baseResistance moral logi training)

/-- One weapon system's row of the result dicts of
`calculate_casualties_range` (lines 511-514). -/
structure SysOut where
  system : String
  base_share : ℚ
  daily_min : ℝ
  daily_max : ℝ
  cum_min : ℤ
  cum_max : ℤ
  kia_min : ℤ
  kia_max : ℤ
  wia_min : ℤ
  wia_max : ℤ

/-- The loop body of `calculate_casualties_range` for one enabled system
(lines 459-514), producing that system's entries of `results`, `total`,
`kia_by_system` and `wia_by_system`. -/
noncomputable def systemBody (base_rate modifier : ℝ)
    (duration med cmd moral logi s2s ad_density ad_ready
      weapon_quality training cohesion total_share : ℚ)
    (suppression_mod efficiency_mod : ℚ) (kia_ratio_ai : ℝ)
    (system : String) (share : ℚ) : SysOut :=
  let base_share : ℚ := share / total_share
  let raw_eff : ℚ := rawEff system duration logi s2s ad_density ad_ready weapon_quality
  let system_eff : ℝ := 1 + 0.65 * Real.tanh ((raw_eff : ℝ) - 1)
  let system_eff : ℝ := max (system_eff * (efficiency_mod : ℝ)) 0.35
  let suppression : ℚ :=
    (1 - (0.03 + 0.05 * cmd)) * (1 + 0.05 * min training 1.2) *
      (0.98 + 0.03 * min cohesion 1.15) * suppression_mod *
      (1 + 0.5 * (1 - suppression_mod))
  let med_factor : ℝ := medical_scaling med moral logi
  let base : ℝ :=
    base_rate * (base_share : ℝ) * system_eff * modifier * med_factor * (suppression : ℝ)
  let daily_base : ℝ := base * decayCurveFactor duration moral logi training
  let daily_min : ℝ := pyRound1 (daily_base * 0.95)
  let daily_max : ℝ := pyRound1 (daily_base * 1.05)
  let kia_min : ℤ := pyRoundR (daily_min * kia_ratio_ai * (duration : ℝ))
  let kia_max : ℤ := pyRoundR (daily_max * kia_ratio_ai * (duration : ℝ))
  let wia_min : ℤ := pyRoundR (daily_min * (1 - kia_ratio_ai) * (duration : ℝ))
  let wia_max : ℤ := pyRoundR (daily_max * (1 - kia_ratio_ai) * (duration : ℝ))
  let wia : ℤ × ℤ := enforce_kia_wia_sanity kia_min kia_max wia_min wia_max
  { system := system
    base_share := base_share
    daily_min := daily_min
    daily_max := daily_max
    cum_min := pyRoundR (daily_min * (duration : ℝ))
    cum_max := pyRoundR (daily_max * (duration : ℝ))
    kia_min := kia_min
    kia_max := kia_max
    wia_min := wia.1
    wia_max := wia.2 }

/-- `total_share = sum(weapons.values())` (lines 332 and 446). -/
def total_share (weapons : List (String × ℚ)) : ℚ := (weapons.map Prod.snd).sum

/-- `calculate_casualties_range(...)` (lines 438-516).  When every share is
zero the source issues `st.warning` and returns four empty dicts — the
explicit no-result state, modelled as `none`.  Otherwise it loops over the
weapons dict in insertion order, skipping zero shares.  The `ew_enemy` and
`ew_cover` parameters are threaded but unused by the body, exactly as in the
source. -/
noncomputable def calculate_casualties_range (base_rate modifier : ℝ)
    (duration ew_enemy med cmd moral logi s2s ad_density ew_cover ad_ready
      weapon_quality training cohesion : ℚ) (weapons : List (String × ℚ))
    (deltas : DominanceDeltas) (kia_ratio_ai : ℝ) : Option (List SysOut) :=
  if total_share weapons = 0 then none
  else
    let mods := compute_dominance_modifiers deltas
    some ((weapons.filter (fun p => ¬ p.2 = 0)).map (fun p =>
      systemBody base_rate modifier duration med cmd moral logi s2s ad_density ad_ready
        weapon_quality training cohesion (total_share weapons)
        mods.suppression_mod mods.efficiency_mod kia_ratio_ai p.1 p.2))

/-! ## Composition aggregator and module-level force statistics
(app.py lines 148-205, 230-283, 311-330) -/

/-- `composition_stats` (lines 148-167): unit tag ↦ (cohesion, weapons, training). -/
def composition_stats : List (String × ℚ × ℚ × ℚ) :=
  [("VDV", (1.25, 1.15, 1.30)), ("Armored", (1.10, 1.25, 1.10)),
   ("Mechanized", (1.05, 1.15, 1.00)), ("Artillery", (1.10, 1.30, 1.00)),
   ("CAS Air", (1.00, 1.20, 1.05)), ("Engineer Units", (1.00, 0.95, 1.10)),
   ("National Guard", (0.95, 0.90, 0.85)), ("Storm-Z", (1.00, 1.10, 1.00)),
   ("SOF", (1.25, 1.20, 1.30)), ("EW Units", (1.10, 1.00, 1.10)),
   ("Recon", (1.15, 1.10, 1.20)), ("C4ISR Teams", (1.10, 1.05, 1.25)),
   ("Infantry", (0.90, 0.80, 0.85)), ("Territorial Defense", (0.75, 0.70, 0.65)),
   ("Reservists", (0.70, 0.60, 0.55)), ("Drone Units", (0.90, 1.25, 1.10)),
   ("FPV Teams", (0.95, 1.10, 1.05)), ("Foreign Legion", (1.10, 1.05, 1.15))]

/-- `composition_stats.get(unit, {})` followed by per-axis `.get(_, 1)`
(lines 174-177): an unknown tag contributes `1` on every axis. -/
def statsOf (unit : String) : ℚ × ℚ × ℚ :=
  ((composition_stats.find? (fun p => p.1 = unit)).map Prod.snd).getD (1, 1, 1)

/-- `aggregate_composition(selection)` (lines 169-179): `(1,1,1)` for an empty
selection, otherwise the per-axis arithmetic mean over the selected tags. -/
def aggregate_composition (selection : List String) : ℚ × ℚ × ℚ :=
  if selection = [] then (1, 1, 1)
  else
    let n : ℚ := selection.length
    ((selection.map (fun u => (statsOf u).1)).sum / n,
     (selection.map (fun u => (statsOf u).2.1)).sum / n,
     (selection.map (fun u => (statsOf u).2.2)).sum / n)

/-- `force_resilience(moral, logi, cmd, cohesion, training)` (lines 185-190). -/
noncomputable def force_resilience (moral logi cmd cohesion training : ℚ) : ℝ :=
  morale_scaling moral * (logistic_scaling logi : ℝ) * ((1 + 0.2 * cmd : ℚ) : ℝ) *
    (cohesion : ℝ) * (training : ℝ)

/-- `adjusted_posture(posture, resilience, baseline=1.0)` (lines 195-202). -/
noncomputable def adjusted_posture (posture : ℚ) (resilience baseline : ℝ) : ℝ :=
  1 + 0.25 * Real.tanh (3 * (((posture : ℝ) - 1) * (1 - baseline / resilience)))

/-- Every sidebar input of the Streamlit app (lines 73-145 and 234-237),
gathered into one record: the ambient module-level globals the engine reads. -/
structure Globals where
  duration_days : ℚ
  intensity_level : ℕ
  exp_rus : ℚ
  ew_rus : ℚ
  cmd_rus : ℚ
  med_rus : ℚ
  moral_rus : ℚ
  logi_rus : ℚ
  exp_ukr : ℚ
  ew_ukr : ℚ
  cmd_ukr : ℚ
  med_ukr : ℚ
  moral_ukr : ℚ
  logi_ukr : ℚ
  artillery_on : Bool
  drones_on : Bool
  snipers_on : Bool
  small_arms_on : Bool
  heavy_on : Bool
  armor_on : Bool
  airstrikes_on : Bool
  s2s_rus : ℚ
  s2s_ukr : ℚ
  ad_density_rus : ℚ
  ew_cover_rus : ℚ
  ad_ready_rus : ℚ
  ad_density_ukr : ℚ
  ew_cover_ukr : ℚ
  ad_ready_ukr : ℚ
  kia_ratio : ℚ
  composition_rus : List String
  composition_ukr : List String
  posture_rus : ℚ
  posture_ukr : ℚ
  kill_ratio_slider : ℤ

/-- `coh_rus, weapon_quality_rus, train_rus = aggregate_composition(composition_rus)`
(line 181). -/
def coh_rus (g : Globals) : ℚ := (aggregate_composition g.composition_rus).1

/-- Weapon-quality coefficient of the Russian composition (line 181). -/
def weapon_quality_rus (g : Globals) : ℚ := (aggregate_composition g.composition_rus).2.1

/-- Training coefficient of the Russian composition (line 181). -/
def train_rus (g : Globals) : ℚ := (aggregate_composition g.composition_rus).2.2

/-- Cohesion coefficient of the Ukrainian composition (line 182). -/
def coh_ukr (g : Globals) : ℚ := (aggregate_composition g.composition_ukr).1

/-- Weapon-quality coefficient of the Ukrainian composition (line 182). -/
def weapon_quality_ukr (g : Globals) : ℚ := (aggregate_composition g.composition_ukr).2.1

/-- Training coefficient of the Ukrainian composition (line 182). -/
def train_ukr (g : Globals) : ℚ := (aggregate_composition g.composition_ukr).2.2

/-- `res_rus` (line 192). -/
noncomputable def res_rus (g : Globals) : ℝ :=
  force_resilience g.moral_rus g.logi_rus g.cmd_rus (coh_rus g) (train_rus g)

/-- `res_ukr` (line 193). -/
noncomputable def res_ukr (g : Globals) : ℝ :=
  force_resilience g.moral_ukr g.logi_ukr g.cmd_ukr (coh_ukr g) (train_ukr g)

/-- `posture_rus_adj = adjusted_posture(posture_rus, res_rus)` (line 204). -/
noncomputable def posture_rus_adj (g : Globals) : ℝ :=
  adjusted_posture g.posture_rus (res_rus g) 1

/-- `posture_ukr_adj = adjusted_posture(posture_ukr, res_ukr)` (line 205). -/
noncomputable def posture_ukr_adj (g : Globals) : ℝ :=
  adjusted_posture g.posture_ukr (res_ukr g) 1

/-- The numeric kill ratio from the slider (lines 240-245). -/
def actual_kill_ratio (g : Globals) : ℚ :=
  if g.kill_ratio_slider = 0 then 1
  else if 0 < g.kill_ratio_slider then (g.kill_ratio_slider : ℚ)
  else 1 / |(g.kill_ratio_slider : ℚ)|

/-- The base daily KIA for an intensity level, `levels[intensity_level]`
(lines 262-269; a `KeyError` outside 1..5, which the 1..5 slider rules out —
total here with the last level as the fall-through). -/
def intensityBase (level : ℕ) : ℚ :=
  if level = 1 then 20 else if level = 2 then 50
  else if level = 3 then 100 else if level = 4 then 160 else 220

/-- `get_intensity_map(kill_ratio)` (lines 256-276): the dominant side keeps
the base, the other side's base is scaled up by the ratio. -/
def get_intensity_map (level : ℕ) (kill_ratio : ℚ) : ℚ × ℚ :=
  let base := intensityBase level
  if 1 < kill_ratio then (base, base * kill_ratio)
  else if kill_ratio < 1 then (base / kill_ratio, base)
  else (base, base)

/-- `base_rus` after the posture adjustment (lines 279-282). -/
noncomputable def base_rus (g : Globals) : ℝ :=
  ((get_intensity_map g.intensity_level (actual_kill_ratio g)).1 : ℝ) * posture_rus_adj g

/-- `base_ukr` after the posture adjustment (lines 279-283). -/
noncomputable def base_ukr (g : Globals) : ℝ :=
  ((get_intensity_map g.intensity_level (actual_kill_ratio g)).2 : ℝ) * posture_ukr_adj g

/-- The `weapons` dict (lines 312-330): each system carries its fixed canonical
share from `share_values` when its checkbox is on, else `0.0`. -/
def weaponsOf (g : Globals) : List (String × ℚ) :=
  [("Artillery", if g.artillery_on then 0.62 else 0),
   ("Drones", if g.drones_on then 0.13 else 0),
   ("Snipers", if g.snipers_on then 0.01 else 0),
   ("Small Arms", if g.small_arms_on then 0.05 else 0),
   ("Heavy Weapons", if g.heavy_on then 0.04 else 0),
   ("Armored Vehicles", if g.armor_on then 0.06 else 0),
   ("Air Strikes", if g.airstrikes_on then 0.09 else 0)]

/-! ## `display_force` (app.py lines 519-585) and the final output execution
(lines 677-724) -/

/-- What one `display_force` call computes: the per-system result rows (`none`
when the calculator signalled no enabled system), the summed totals of lines
552-557, and the KIA ratio used, i.e. both the displayed metrics and the
`return_data=True` dict of lines 560-565. -/
structure DisplayData where
  systems : Option (List SysOut)
  total_range : ℤ × ℤ
  kia_range : ℤ × ℤ
  wia_range : ℤ × ℤ
  kia_ratio_used : ℝ

/-- `display_force(flag, name, base, exp, ew_enemy, cmd, moral, med, logi,
duration, enemy_exp, enemy_ew, s2s, ad_dens, ew_cov, ad_ready, weapon_quality,
training, cohesion, weapons, base_slider, ...)` (lines 519-585).  `flag` is
modelled as `isRus : Bool` (the source compares `flag == "🇷🇺"`); the display
name string plays no computational part.  The body reads the module globals
`cmd_ukr, logi_ukr, moral_ukr, cmd_rus, logi_rus, moral_rus` and the four
AD-density/EW-coverage globals when building the deltas (lines 527-534),
so it takes the `Globals` record. -/
noncomputable def display_force (g : Globals) (isRus : Bool) (base : ℝ)
    (exper ew_enemy cmd moral med logi duration enemy_exp enemy_ew
      s2s ad_dens ew_cov ad_ready weapon_quality training cohesion : ℚ)
    (weapons : List (String × ℚ)) (base_slider : ℚ) : DisplayData :=
  let modifier : ℝ := (exper : ℝ) * morale_scaling moral * (logistic_scaling logi : ℝ)
  let deltas : DominanceDeltas :=
    if isRus then
      withAdEw (compute_relative_dominance cmd g.cmd_ukr logi g.logi_ukr moral g.moral_ukr)
        (g.ad_density_rus - g.ad_density_ukr) (g.ew_cover_rus - g.ew_cover_ukr)
    else
      withAdEw (compute_relative_dominance cmd g.cmd_rus logi g.logi_rus moral g.moral_rus)
        (g.ad_density_ukr - g.ad_density_rus) (g.ew_cover_ukr - g.ew_cover_rus)
  let dominance_mods := compute_dominance_modifiers deltas
  let kia_ratio_ai : ℝ :=
    calculate_kia_ratio med logi cmd moral training cohesion dominance_mods base_slider
  let sys : Option (List SysOut) :=
    calculate_casualties_range base modifier duration ew_enemy med cmd moral logi
      s2s ad_dens ew_cov ad_ready weapon_quality training cohesion weapons deltas kia_ratio_ai
  let rows := sys.getD []
  { systems := sys
    total_range := ((rows.map (fun o => o.cum_min)).sum, (rows.map (fun o => o.cum_max)).sum)
    kia_range := ((rows.map (fun o => o.kia_min)).sum, (rows.map (fun o => o.kia_max)).sum)
    wia_range := ((rows.map (fun o => o.wia_min)).sum, (rows.map (fun o => o.wia_max)).sum)
    kia_ratio_used := kia_ratio_ai }

/-- Step 1 (lines 680-684): the Russian force call, with `ew_enemy = ew_ukr`,
`enemy_ew = ew_rus`, and the force's own `s2s/AD/EW-coverage` inputs. -/
noncomputable def results_rus (g : Globals) : DisplayData :=
  display_force g true (base_rus g) g.exp_rus g.ew_ukr g.cmd_rus g.moral_rus g.med_rus
    g.logi_rus g.duration_days g.exp_ukr g.ew_rus g.s2s_rus g.ad_density_rus
    g.ew_cover_rus g.ad_ready_rus (weapon_quality_rus g) (train_rus g) (coh_rus g)
    (weaponsOf g) g.kia_ratio

/-- Step 2 (lines 687-691): the Ukrainian force call, with `ew_enemy = ew_rus`,
`enemy_ew = ew_ukr`. -/
noncomputable def results_ukr (g : Globals) : DisplayData :=
  display_force g false (base_ukr g) g.exp_ukr g.ew_rus g.cmd_ukr g.moral_ukr g.med_ukr
    g.logi_ukr g.duration_days g.exp_rus g.ew_ukr g.s2s_ukr g.ad_density_ukr
    g.ew_cover_ukr g.ad_ready_ukr (weapon_quality_ukr g) (train_ukr g) (coh_ukr g)
    (weaponsOf g) g.kia_ratio

/-- The final screen state after Step 3 (lines 693-724): both forces' organic
results as computed in Steps 1-2, plus at most one side's kill-ratio-adjusted
KIA/WIA ranges, displayed under a separate header. -/
structure FinalOutput where
  rus : DisplayData
  ukr : DisplayData
  adjusted_rus : Option ((ℤ × ℤ) × (ℤ × ℤ))
  adjusted_ukr : Option ((ℤ × ℤ) × (ℤ × ℤ))

/-- Step 3 (lines 693-724): `kill_ratio_slider > 0` overrides the Ukrainian
side from the Russian organic KIA range; `< 0` overrides the Russian side from
the Ukrainian organic KIA range; `0` displays nothing further.  The organic
`results_rus` / `results_ukr` dicts are never written to. -/
noncomputable def killRatioStage (slider : ℤ) (rus ukr : DisplayData) : FinalOutput :=
  if 0 < slider then
    let ov := enforce_kill_ratio rus.kia_range (|slider| : ℚ) ukr.kia_ratio_used
    { rus := rus, ukr := ukr, adjusted_rus := none,
      adjusted_ukr := some (ov.1, enforce_kia_wia_sanity ov.1.1 ov.1.2 ov.2.1 ov.2.2) }
  else if slider < 0 then
    let ov := enforce_kill_ratio ukr.kia_range (|slider| : ℚ) rus.kia_ratio_used
    { rus := rus, ukr := ukr, adjusted_ukr := none,
      adjusted_rus := some (ov.1, enforce_kia_wia_sanity ov.1.1 ov.1.2 ov.2.1 ov.2.2) }
  else
    { rus := rus, ukr := ukr, adjusted_rus := none, adjusted_ukr := none }

/-- One full evaluation of the dashboard's computation for a sidebar
configuration: both forces' organic results and the optional kill-ratio
override stage. -/
noncomputable def runApp (g : Globals) : FinalOutput :=
  killRatioStage g.kill_ratio_slider (results_rus g) (results_ukr g)

/-! ## C2: the zero-share guard and the normalization -/

/-- Skipping the zero-share systems does not change the summed share. -/
theorem sum_snd_filter_ne_zero (l : List (String × ℚ)) :
    ((l.filter (fun p => ¬ p.2 = 0)).map Prod.snd).sum = (l.map Prod.snd).sum := by
  induction l with
  | nil => rfl
  | cons a t ih =>
    simp only [decide_not] at ih
    rw [List.filter_cons]
    by_cases h : a.2 = 0
    · rw [if_neg (by simp [h])]
      simp [h, ih]
    · rw [if_pos (by simp [h])]
      simp [ih]

/-- Dividing each summand by a constant divides the sum. -/
theorem sum_map_div (l : List (String × ℚ)) (c : ℚ) :
    (l.map (fun p => p.2 / c)).sum = (l.map Prod.snd).sum / c := by
  induction l with
  | nil => simp
  | cons a t ih => simp [ih, add_div]

/-- C2: the engine returns its explicit no-result state exactly when every
weapon system is disabled (total enabled share zero); in every other case the
per-system `base_share = share / total_share` values it computes are genuine
normalized shares — they sum to `1`, the division having been performed only
under the verified-nonzero guard. -/
theorem zero_share_guard (base_rate modifier : ℝ)
    (duration ew_enemy med cmd moral logi s2s ad_density ew_cover ad_ready
      weapon_quality training cohesion : ℚ) (weapons : List (String × ℚ))
    (deltas : DominanceDeltas) (kia_ratio_ai : ℝ) :
    (calculate_casualties_range base_rate modifier duration ew_enemy med cmd moral logi
        s2s ad_density ew_cover ad_ready weapon_quality training cohesion weapons
        deltas kia_ratio_ai = none ↔ total_share weapons = 0) ∧
    (¬ total_share weapons = 0 →
      (((calculate_casualties_range base_rate modifier duration ew_enemy med cmd moral logi
          s2s ad_density ew_cover ad_ready weapon_quality training cohesion weapons
          deltas kia_ratio_ai).getD []).map (fun o => o.base_share)).sum = 1) := by
  unfold calculate_casualties_range
  by_cases h : total_share weapons = 0
  · simp [h]
  · refine ⟨by simp [h], fun _ => ?_⟩
    simp only [h, if_false, Option.getD_some, List.map_map]
    have hshape :
        ((fun o : SysOut => o.base_share) ∘ fun p : String × ℚ =>
          systemBody base_rate modifier duration med cmd moral logi s2s ad_density ad_ready
            weapon_quality training cohesion (total_share weapons)
            (compute_dominance_modifiers deltas).suppression_mod
            (compute_dominance_modifiers deltas).efficiency_mod kia_ratio_ai p.1 p.2) =
          fun p : String × ℚ => p.2 / total_share weapons := rfl
    rw [hshape, sum_map_div, sum_snd_filter_ne_zero]
    exact div_self h

/-! ## C7: WIA at least KIA after sanity enforcement -/

/-- Each per-system row leaves the sanity enforcer with WIA at least KIA. -/
theorem systemBody_kia_le_wia (base_rate modifier : ℝ)
    (duration med cmd moral logi s2s ad_density ad_ready
      weapon_quality training cohesion ts suppression_mod efficiency_mod : ℚ)
    (kia_ratio_ai : ℝ) (system : String) (share : ℚ) :
    (systemBody base_rate modifier duration med cmd moral logi s2s ad_density ad_ready
        weapon_quality training cohesion ts suppression_mod efficiency_mod kia_ratio_ai
        system share).kia_min ≤
      (systemBody base_rate modifier duration med cmd moral logi s2s ad_density ad_ready
        weapon_quality training cohesion ts suppression_mod efficiency_mod kia_ratio_ai
        system share).wia_min ∧
    (systemBody base_rate modifier duration med cmd moral logi s2s ad_density ad_ready
        weapon_quality training cohesion ts suppression_mod efficiency_mod kia_ratio_ai
        system share).kia_max ≤
      (systemBody base_rate modifier duration med cmd moral logi s2s ad_density ad_ready
        weapon_quality training cohesion ts suppression_mod efficiency_mod kia_ratio_ai
        system share).wia_max :=
  ⟨le_max_right _ _, le_max_right _ _⟩

/-- Every row the calculator emits satisfies the component-wise invariant. -/
theorem calc_rows_kia_le_wia (base_rate modifier : ℝ)
    (duration ew_enemy med cmd moral logi s2s ad_density ew_cover ad_ready
      weapon_quality training cohesion : ℚ) (weapons : List (String × ℚ))
    (deltas : DominanceDeltas) (kia_ratio_ai : ℝ) :
    ∀ o ∈ (calculate_casualties_range base_rate modifier duration ew_enemy med cmd moral logi
        s2s ad_density ew_cover ad_ready weapon_quality training cohesion weapons
        deltas kia_ratio_ai).getD [],
      o.kia_min ≤ o.wia_min ∧ o.kia_max ≤ o.wia_max := by
  intro o ho
  unfold calculate_casualties_range at ho
  by_cases h : total_share weapons = 0
  · simp [h] at ho
  · simp only [h, if_false, Option.getD_some, List.mem_map] at ho
    obtain ⟨p, _, rfl⟩ := ho
    exact systemBody_kia_le_wia _ _ _ _ _ _ _ _ _ _ _ _ _ _ _ _ _ _ _

/-- C7: after sanity enforcement, wounded-in-action is component-wise at least
killed-in-action: per weapon system, for the force totals `display_force`
reports, and on the kill-ratio-adjusted side of the final output. -/
theorem wia_ge_kia_invariant (g : Globals) (isRus : Bool) (base : ℝ)
    (exper ew_enemy cmd moral med logi duration enemy_exp enemy_ew
      s2s ad_dens ew_cov ad_ready weapon_quality training cohesion : ℚ)
    (weapons : List (String × ℚ)) (base_slider : ℚ)
    (slider : ℤ) (r u : DisplayData) :
    (∀ o ∈ (display_force g isRus base exper ew_enemy cmd moral med logi duration
        enemy_exp enemy_ew s2s ad_dens ew_cov ad_ready weapon_quality training cohesion
        weapons base_slider).systems.getD [],
      o.kia_min ≤ o.wia_min ∧ o.kia_max ≤ o.wia_max) ∧
    ((display_force g isRus base exper ew_enemy cmd moral med logi duration
        enemy_exp enemy_ew s2s ad_dens ew_cov ad_ready weapon_quality training cohesion
        weapons base_slider).kia_range.1 ≤
      (display_force g isRus base exper ew_enemy cmd moral med logi duration
        enemy_exp enemy_ew s2s ad_dens ew_cov ad_ready weapon_quality training cohesion
        weapons base_slider).wia_range.1 ∧
      (display_force g isRus base exper ew_enemy cmd moral med logi duration
        enemy_exp enemy_ew s2s ad_dens ew_cov ad_ready weapon_quality training cohesion
        weapons base_slider).kia_range.2 ≤
      (display_force g isRus base exper ew_enemy cmd moral med logi duration
        enemy_exp enemy_ew s2s ad_dens ew_cov ad_ready weapon_quality training cohesion
        weapons base_slider).wia_range.2) ∧
    ((killRatioStage slider r u).adjusted_ukr.elim True
      (fun a => a.1.1 ≤ a.2.1 ∧ a.1.2 ≤ a.2.2)) ∧
    ((killRatioStage slider r u).adjusted_rus.elim True
      (fun a => a.1.1 ≤ a.2.1 ∧ a.1.2 ≤ a.2.2)) := by
  have hrows := calc_rows_kia_le_wia base
    ((exper : ℝ) * morale_scaling moral * (logistic_scaling logi : ℝ))
    duration ew_enemy med cmd moral logi s2s ad_dens ew_cov ad_ready
    weapon_quality training cohesion weapons
    (if isRus then
      withAdEw (compute_relative_dominance cmd g.cmd_ukr logi g.logi_ukr moral g.moral_ukr)
        (g.ad_density_rus - g.ad_density_ukr) (g.ew_cover_rus - g.ew_cover_ukr)
    else
      withAdEw (compute_relative_dominance cmd g.cmd_rus logi g.logi_rus moral g.moral_rus)
        (g.ad_density_ukr - g.ad_density_rus) (g.ew_cover_ukr - g.ew_cover_rus))
    (calculate_kia_ratio med logi cmd moral training cohesion
      (compute_dominance_modifiers
        (if isRus then
          withAdEw (compute_relative_dominance cmd g.cmd_ukr logi g.logi_ukr moral g.moral_ukr)
            (g.ad_density_rus - g.ad_density_ukr) (g.ew_cover_rus - g.ew_cover_ukr)
        else
          withAdEw (compute_relative_dominance cmd g.cmd_rus logi g.logi_rus moral g.moral_rus)
            (g.ad_density_ukr - g.ad_density_rus) (g.ew_cover_ukr - g.ew_cover_rus)))
      base_slider)
  refine ⟨hrows, ⟨?_, ?_⟩, ?_, ?_⟩
  · exact List.sum_le_sum (fun o ho => (hrows o ho).1)
  · exact List.sum_le_sum (fun o ho => (hrows o ho).2)
  · unfold killRatioStage
    split_ifs <;> simp [enforce_kia_wia_sanity, le_max_right]
  · unfold killRatioStage
    split_ifs <;> simp [enforce_kia_wia_sanity, le_max_right]

/-! ## C9: kill-ratio enforcement is a one-sided, organic-preserving stage -/

/-- C9: the final stage never rewrites the organic per-force results (they are
passed through unchanged for every slider value); at the neutral slider value
`0` no adjusted output is produced at all; and for every slider value at most
one side carries an adjusted output. -/
theorem kill_ratio_stage_frame (slider : ℤ) (r u : DisplayData) :
    ((killRatioStage slider r u).rus = r ∧ (killRatioStage slider r u).ukr = u) ∧
    ((killRatioStage 0 r u).adjusted_rus = none ∧
      (killRatioStage 0 r u).adjusted_ukr = none) ∧
    ((killRatioStage slider r u).adjusted_rus = none ∨
      (killRatioStage slider r u).adjusted_ukr = none) := by
  unfold killRatioStage
  refine ⟨?_, by norm_num, ?_⟩
  · split_ifs <;> exact ⟨rfl, rfl⟩
  · split_ifs <;> simp

/-! ## C10: the EW-effectiveness-vs-opponent inputs are dead -/

/-- C10: two evaluations of the whole dashboard computation that differ only
in the two EW-effectiveness-vs-opponent sliders (`ew_rus`, `ew_ukr`) produce
identical outputs in every component — per-system daily and cumulative ranges,
totals, KIA/WIA ranges, fatality ratios, and the kill-ratio-adjusted stage:
those two inputs are threaded into `display_force` and
`calculate_casualties_range` as `ew_enemy` / `enemy_ew` but never used in any
formula.  The equation holds by definitional unfolding alone (`rfl`). -/
theorem ew_inputs_never_used (g : Globals) (e1 e2 e1' e2' : ℚ) :
    runApp { g with ew_rus := e1, ew_ukr := e2 } =
      runApp { g with ew_rus := e1', ew_ukr := e2' } := rfl

/-! ## C6: which factors multiply which weapon system -/

/-- C6 counterexample: at a concrete scenario (all inputs inside the
documented ranges, drones and air strikes enabled), changing the opponent-EW
parameter `ew_enemy` from `0.1` to `1.5` leaves every per-system output of the
calculator identical — no denial factor depends on the opponent's EW
effectiveness — and the `ew_penalty` applied to the air-strikes category is
the same constant `1.0` as for the non-denial categories. -/
theorem ew_denial_not_from_opponent_ew :
    calculate_casualties_range 100 1 1031 (1/10) (7/10) (2/5) (5/4) (6/5) (9/10) (9/10)
        (4/5) (19/20) 1 (11/10) 1
        [("Artillery", 31/50), ("Drones", 13/100), ("Air Strikes", 9/100)]
        ⟨1/10, 1/10, 1/10, 1/10, 1/10⟩ (1/2) =
      calculate_casualties_range 100 1 1031 (3/2) (7/10) (2/5) (5/4) (6/5) (9/10) (9/10)
        (4/5) (19/20) 1 (11/10) 1
        [("Artillery", 31/50), ("Drones", 13/100), ("Air Strikes", 9/100)]
        ⟨1/10, 1/10, 1/10, 1/10, 1/10⟩ (1/2) ∧
      ewPenalty "Air Strikes" = 1 :=
  ⟨rfl, rfl⟩

/-- C6 (amended): in the allocator, the EW penalty is the constant `0.75` for
drones and `1.0` for every other category including air strikes (the opponent-EW
parameter is threaded but unused); the AD denial factor
`clamp(1 - ad_density*ad_readiness, 0.75, 1.05)` applies to drones and air
strikes and only those, computed from the AD arguments supplied for the force
itself; the sensor-to-shooter coordination bonus `clamp(s2s, 0.85, 1.10)`
applies exactly to artillery, drones and air strikes; and the raw system
efficiency is the product of these with the system scaling and the composition
weapon-quality factor. -/
theorem allocator_factor_structure (duration logi s2s a r wq : ℚ)
    (base_rate modifier : ℝ)
    (ew1 ew2 med cmd moral logi' s2s' ad ec ar wq' tr coh : ℚ)
    (weapons : List (String × ℚ)) (deltas : DominanceDeltas) (kr : ℝ) (sys : String) :
    (ewPenalty "Artillery" = 1 ∧ ewPenalty "Drones" = 0.75 ∧ ewPenalty "Snipers" = 1 ∧
      ewPenalty "Small Arms" = 1 ∧ ewPenalty "Heavy Weapons" = 1 ∧
      ewPenalty "Armored Vehicles" = 1 ∧ ewPenalty "Air Strikes" = 1) ∧
    (adPenalty "Drones" a r = min (max (1 - a * r) 0.75) 1.05 ∧
      adPenalty "Air Strikes" a r = min (max (1 - a * r) 0.75) 1.05 ∧
      adPenalty "Artillery" a r = 1 ∧ adPenalty "Snipers" a r = 1 ∧
      adPenalty "Small Arms" a r = 1 ∧ adPenalty "Heavy Weapons" a r = 1 ∧
      adPenalty "Armored Vehicles" a r = 1) ∧
    (coordination "Artillery" s2s = min (max s2s 0.85) 1.10 ∧
      coordination "Drones" s2s = min (max s2s 0.85) 1.10 ∧
      coordination "Air Strikes" s2s = min (max s2s 0.85) 1.10 ∧
      coordination "Snipers" s2s = 1 ∧ coordination "Small Arms" s2s = 1 ∧
      coordination "Heavy Weapons" s2s = 1 ∧ coordination "Armored Vehicles" s2s = 1) ∧
    rawEff sys duration logi s2s a r wq =
      systemScaling sys duration logi * ewPenalty sys * adPenalty sys a r *
        coordination sys s2s * wq ∧
    calculate_casualties_range base_rate modifier duration ew1 med cmd moral logi'
        s2s' ad ec ar wq' tr coh weapons deltas kr =
      calculate_casualties_range base_rate modifier duration ew2 med cmd moral logi'
        s2s' ad ec ar wq' tr coh weapons deltas kr := by
  refine ⟨⟨?_, ?_, ?_, ?_, ?_, ?_, ?_⟩, ⟨?_, ?_, ?_, ?_, ?_, ?_, ?_⟩,
    ⟨?_, ?_, ?_, ?_, ?_, ?_, ?_⟩, rfl, rfl⟩ <;> rfl

/-! ## C8: the temporal decay model -/

/-- `tanh` is strictly below `1` everywhere. -/
theorem real_tanh_lt_one (x : ℝ) : Real.tanh x < 1 := by
  rw [Real.tanh_eq_sinh_div_cosh, div_lt_one (Real.cosh_pos x)]
  have h := Real.cosh_sub_sinh x
  have h2 := Real.exp_pos (-x)
  linarith

/-- `tanh` is strictly above `-1` everywhere. -/
theorem neg_one_lt_real_tanh (x : ℝ) : -1 < Real.tanh x := by
  rw [Real.tanh_eq_sinh_div_cosh, lt_div_iff₀ (Real.cosh_pos x)]
  have h := Real.sinh_add_cosh x
  have h2 := Real.exp_pos x
  linarith

/-- The duration-dependent decay strength is positive. -/
theorem decayStrength_pos (duration : ℚ) : 0 < decayStrength duration := by
  unfold decayStrength
  have h := neg_one_lt_real_tanh ((duration : ℝ) / 800)
  nlinarith

/-- C8: the decay multiplier is `max(exp(-decay_strength*duration/resistance),
floor)` with `floor = 0.5 ∈ [0.5, 0.65]`; for every nonnegative duration and
positive resistance it lies in `[floor, 1]`; for fixed duration it is monotone
non-decreasing in the resistance; the resistance used by the engine,
`morale_scaling * logistic_scaling * training^1.05`, is positive on the valid
input ranges; and the engine's decay factor is exactly this function of that
resistance. -/
theorem decay_factor_bounds_mono (duration : ℚ) (res res' : ℝ) (m l t : ℚ)
    (hd : 0 ≤ duration) (hr : 0 < res) (hrr : res ≤ res')
    (hl : 1/2 ≤ l) (ht : 0 < t) :
    ((1/2 : ℝ) ≤ decayFloor ∧ decayFloor ≤ 13/20) ∧
    (decayFloor ≤ decayFactorOfRes duration res ∧ decayFactorOfRes duration res ≤ 1) ∧
    decayFactorOfRes duration res ≤ decayFactorOfRes duration res' ∧
    0 < baseResistance m l t ∧
    decayCurveFactor duration m l t = decayFactorOfRes duration (baseResistance m l t) := by
  have hds : 0 < decayStrength duration := decayStrength_pos duration
  have hdr : (0 : ℝ) ≤ (duration : ℝ) := by exact_mod_cast hd
  have hc : 0 ≤ decayStrength duration * (duration : ℝ) := mul_nonneg hds.le hdr
  have hres' : 0 < res' := lt_of_lt_of_le hr hrr
  refine ⟨⟨by norm_num [decayFloor], by norm_num [decayFloor]⟩, ⟨le_max_right _ _, ?_⟩,
    ?_, ?_, rfl⟩
  · apply max_le _ (by norm_num [decayFloor])
    rw [Real.exp_le_one_iff, neg_mul, neg_div]
    have : 0 ≤ decayStrength duration * (duration : ℝ) / res := div_nonneg hc hr.le
    linarith
  · apply max_le_max _ le_rfl
    apply Real.exp_le_exp.mpr
    simp only [neg_mul, neg_div, neg_le_neg_iff]
    gcongr
  · have h1 : (0 : ℝ) < morale_scaling m := by
      unfold morale_scaling
      have := neg_one_lt_real_tanh (2 * ((m : ℝ) - 1))
      nlinarith
    have h2 : (0 : ℝ) < (logistic_scaling l : ℝ) := by
      have : (0 : ℚ) < logistic_scaling l := by unfold logistic_scaling; linarith
      exact_mod_cast this
    have h3 : (0 : ℝ) < (t : ℝ) ^ (1.05 : ℝ) :=
      Real.rpow_pos_of_pos (by exact_mod_cast ht) _
    exact mul_pos (mul_pos h1 h2) h3

/-- C8 witness: the decay theorem at `duration = 30`, resistances `1 ≤ 2`,
neutral morale/logistics/training. -/
theorem decay_factor_bounds_mono_witness :
    ((1/2 : ℝ) ≤ decayFloor ∧ decayFloor ≤ 13/20) ∧
    (decayFloor ≤ decayFactorOfRes 30 1 ∧ decayFactorOfRes 30 1 ≤ 1) ∧
    decayFactorOfRes 30 1 ≤ decayFactorOfRes 30 2 ∧
    0 < baseResistance 1 1 1 ∧
    decayCurveFactor 30 1 1 1 = decayFactorOfRes 30 (baseResistance 1 1 1) :=
  decay_factor_bounds_mono 30 1 2 1 1 1 (by norm_num) (by norm_num) (by norm_num)
    (by norm_num) (by norm_num)

/-! ## C1: module-level execution order

Python executes `app.py` top to bottom.  A top-level statement is modelled by
the global names it binds and the global names its execution dereferences
(for a `def`, nothing is read until the function is called; for a call, the
called function's own global reads happen at the calling statement).
Statements that only render static UI text and bind nothing are omitted; the
sidebar widget assignments each read `st` and bind their variable.  The
interpreter returns the first name that is read while unbound — Python's
`NameError` — or the final environment. -/

/-- One top-level statement: the names it reads, then the names it binds. -/
structure Stmt where
  reads : List String
  binds : List String

/-- Run the module top to bottom, accumulating bound names; stop with the
offending name at the first read of an unbound global. -/
def runStmts : List Stmt → List String → Except String (List String)
  | [], env => Except.ok env
  | s :: rest, env =>
    match s.reads.find? (fun n => ¬ env.contains n) with
    | some n => Except.error n
    | none => runStmts rest (env ++ s.binds)

set_option maxHeartbeats 1600000 in
/-- The top-level statements of `app.py` in source order (lines 1-724). -/
def moduleProgram : List Stmt :=
  [⟨[], ["st", "pd", "math", "alt", "OrderedDict"]⟩,  -- imports, lines 1-5
   ⟨[], ["morale_scaling"]⟩,                          -- line 8
   ⟨[], ["logistic_scaling"]⟩,                        -- line 10
   ⟨[], ["medical_scaling"]⟩,                         -- lines 12-16
   ⟨[], ["commander_scaling"]⟩,                       -- line 18
   ⟨[], ["compute_relative_dominance"]⟩,              -- lines 21-29
   ⟨[], ["compute_dominance_modifiers"]⟩,             -- lines 32-54
   ⟨["st"], []⟩,                                      -- title/markdown, lines 57-70
   -- sidebar widgets, lines 73-145
   ⟨["st"], ["duration_days"]⟩, ⟨["st"], ["intensity_level"]⟩,
   ⟨["st"], ["exp_rus"]⟩, ⟨["st"], ["ew_rus"]⟩, ⟨["st"], ["cmd_rus"]⟩,
   ⟨["st"], ["med_rus"]⟩, ⟨["st"], ["moral_rus"]⟩, ⟨["st"], ["logi_rus"]⟩,
   ⟨["st"], ["exp_ukr"]⟩, ⟨["st"], ["ew_ukr"]⟩, ⟨["st"], ["cmd_ukr"]⟩,
   ⟨["st"], ["med_ukr"]⟩, ⟨["st"], ["moral_ukr"]⟩, ⟨["st"], ["logi_ukr"]⟩,
   ⟨["st"], ["artillery_on"]⟩, ⟨["st"], ["drones_on"]⟩, ⟨["st"], ["snipers_on"]⟩,
   ⟨["st"], ["small_arms_on"]⟩, ⟨["st"], ["heavy_on"]⟩, ⟨["st"], ["armor_on"]⟩,
   ⟨["st"], ["airstrikes_on"]⟩,
   ⟨["st"], ["s2s_rus"]⟩, ⟨["st"], ["s2s_ukr"]⟩,
   ⟨["st"], ["ad_density_rus"]⟩, ⟨["st"], ["ew_cover_rus"]⟩, ⟨["st"], ["ad_ready_rus"]⟩,
   ⟨["st"], ["ad_density_ukr"]⟩, ⟨["st"], ["ew_cover_ukr"]⟩, ⟨["st"], ["ad_ready_ukr"]⟩,
   ⟨["st"], ["kia_ratio"]⟩,
   ⟨[], ["composition_options"]⟩,
   ⟨["st", "composition_options"], ["composition_rus"]⟩,
   ⟨["st", "composition_options"], ["composition_ukr"]⟩,
   ⟨["st"], ["posture_rus"]⟩, ⟨["st"], ["posture_ukr"]⟩,
   ⟨[], ["composition_stats"]⟩,                       -- lines 148-167
   ⟨[], ["aggregate_composition"]⟩,                   -- lines 169-179
   -- line 181-182: the aggregator reads composition_stats when called
   ⟨["aggregate_composition", "composition_rus", "composition_stats"],
     ["coh_rus", "weapon_quality_rus", "train_rus"]⟩,
   ⟨["aggregate_composition", "composition_ukr", "composition_stats"],
     ["coh_ukr", "weapon_quality_ukr", "train_ukr"]⟩,
   ⟨[], ["force_resilience"]⟩,                        -- lines 185-190
   ⟨["force_resilience", "moral_rus", "logi_rus", "cmd_rus", "coh_rus", "train_rus",
     "morale_scaling", "logistic_scaling"], ["res_rus"]⟩,  -- line 192
   ⟨["force_resilience", "moral_ukr", "logi_ukr", "cmd_ukr", "coh_ukr", "train_ukr",
     "morale_scaling", "logistic_scaling"], ["res_ukr"]⟩,  -- line 193
   ⟨[], ["adjusted_posture"]⟩,                        -- lines 195-202
   ⟨["adjusted_posture", "posture_rus", "res_rus", "math"], ["posture_rus_adj"]⟩, -- 204
   ⟨["adjusted_posture", "posture_ukr", "res_ukr", "math"], ["posture_ukr_adj"]⟩, -- 205
   ⟨[], ["medical_scaling"]⟩,                         -- redefinition, lines 208-215
   ⟨[], ["get_kia_ratio_by_system"]⟩,                 -- lines 217-228
   ⟨["st"], ["kill_ratio_slider"]⟩,                   -- lines 231-237
   ⟨["kill_ratio_slider"], ["actual_kill_ratio"]⟩,    -- lines 240-245
   ⟨["st", "kill_ratio_slider"], []⟩,                 -- display, lines 248-253
   ⟨[], ["get_intensity_map"]⟩,                       -- lines 256-276
   ⟨["get_intensity_map", "actual_kill_ratio", "intensity_level"],
     ["base_rus", "base_ukr"]⟩,                       -- line 279
   ⟨["base_rus", "posture_rus_adj"], ["base_rus"]⟩,   -- line 282
   ⟨["base_ukr", "posture_ukr_adj"], ["base_ukr"]⟩,   -- line 283
   ⟨[], ["enforce_kill_ratio"]⟩,                      -- first copy, lines 287-303
   ⟨["results_rus"], ["ru_kia_range"]⟩,               -- line 306: use before line 680
   ⟨["ukr_kia_range", "uk"], []⟩,                     -- line 309: truncated statement
   ⟨[], ["share_values"]⟩,                            -- lines 312-320
   ⟨["share_values", "artillery_on", "drones_on", "snipers_on", "small_arms_on",
     "heavy_on", "armor_on", "airstrikes_on"], ["weapons"]⟩,  -- lines 322-330
   ⟨["weapons"], ["total_share"]⟩,                    -- line 332
   ⟨["total_share", "st"], []⟩,                       -- guard, lines 333-335
   ⟨[], ["calculate_kia_ratio"]⟩,                     -- lines 338-366
   ⟨[], ["compute_relative_dominance"]⟩,              -- redefinition, lines 370-379
   ⟨[], ["compute_dominance_modifiers"]⟩,             -- redefinition, lines 383-406
   ⟨[], ["OrderedDict"]⟩,                             -- line 408
   ⟨[], ["enforce_kia_wia_sanity"]⟩,                  -- lines 411-417
   ⟨[], ["enforce_kill_ratio"]⟩,                      -- second copy, lines 420-435
   ⟨[], ["calculate_casualties_range"]⟩,              -- lines 438-516
   ⟨[], ["display_force"]⟩,                           -- lines 519-585
   ⟨[], ["plot_daily_curve"]⟩,                        -- lines 589-618
   ⟨[], ["plot_casualty_chart"]⟩,                     -- lines 621-675
   ⟨["display_force", "base_rus", "exp_rus", "ew_ukr", "cmd_rus", "moral_rus",
     "med_rus", "logi_rus", "duration_days", "exp_ukr", "ew_rus", "s2s_rus",
     "ad_density_rus", "ew_cover_rus", "ad_ready_rus", "weapon_quality_rus",
     "train_rus", "coh_rus", "weapons", "kia_ratio"], ["results_rus"]⟩, -- lines 680-684
   ⟨["display_force", "base_ukr", "exp_ukr", "ew_rus", "cmd_ukr", "moral_ukr",
     "med_ukr", "logi_ukr", "duration_days", "exp_rus", "ew_ukr", "s2s_ukr",
     "ad_density_ukr", "ew_cover_ukr", "ad_ready_ukr", "weapon_quality_ukr",
     "train_ukr", "coh_ukr", "weapons", "kia_ratio"], ["results_ukr"]⟩, -- lines 687-691
   ⟨["kill_ratio_slider", "results_rus", "results_ukr", "enforce_kill_ratio",
     "enforce_kia_wia_sanity", "st"], []⟩]            -- lines 693-724

/-- C1 fails on the code: executing the module top to bottom raises an
uncaught `NameError` at line 306 — `ru_kia_range = results_rus["kia_range"]`
dereferences `results_rus`, which is first bound by the simulation call at
line 680.  Evaluation therefore never completes, for every scenario
configuration. -/
theorem module_run_raises_name_error :
    runStmts moduleProgram [] = Except.error "results_rus" := by
  set_option maxHeartbeats 1600000 in rfl

end Rocinante
